import Mathlib

/-!
Verification of the HVAC backend data layer (src/database.py, src/validators.py,
src/app.py).

The relational store is shallowly embedded as a `DB` record of tables (lists of
rows).  Each Python function that touches the database becomes a pure Lean
function from a `DB` (plus its arguments) to a new `DB` together with the
Python return value.  SQLite `INTEGER` columns are modelled as `Int` (Python
integers are unbounded), `REAL` money/rate columns as `Rat` (all literals in
the source are exact decimals), and `TEXT` columns as `String`.  The
`created_at` timestamp columns (filled in by the database engine, never read
by the modelled logic) are elided.  `AUTOINCREMENT` primary keys are modelled
by `next_*_id` counters carried in `DB` (sqlite `cursor.lastrowid`).
-/

namespace HVAC

/-- One row of the `customers` table (src/database.py, init_database). -/
structure Customer where
  id : Int
  name : String
  phone : String
  address : String
deriving Repr, DecidableEq

/-- One row of the `invoices` table (src/database.py, init_database). -/
structure Invoice where
  id : Int
  invoice_number : String
  customer_id : Int
  date : String
  scheduled_time : String
  technician : String
  work_performed : String
  description : String
  recommendations : String
  labor_cost : Rat
  materials_cost : Rat
  tax_rate : Rat
  status : String
deriving Repr, DecidableEq

/-- One row of the `appointments` table (src/database.py, init_database). -/
structure Appointment where
  id : Int
  customer_id : Int
  appointment_date : String
  appointment_time : String
  technician : String
  service_type : String
  notes : String
  status : String
  invoice_id : Option Int
deriving Repr, DecidableEq

/-- One row of the `inventory` table (src/database.py, init_database). -/
structure InventoryItem where
  id : Int
  name : String
  category : String
  sku : String
  quantity : Int
  unit : String
  cost_per_unit : Rat
  low_stock_threshold : Int
  supplier : String
  notes : String
deriving Repr, DecidableEq

/-- One row of the `inventory_usage` table (src/database.py, init_database). -/
structure UsageRow where
  id : Int
  inventory_id : Int
  appointment_id : Option Int
  invoice_id : Option Int
  quantity_used : Int
  date_used : String
  notes : String
deriving Repr, DecidableEq

/-- The whole relational store, plus the autoincrement counters. -/
structure DB where
  customers : List Customer
  invoices : List Invoice
  appointments : List Appointment
  inventory : List InventoryItem
  inventory_usage : List UsageRow
  next_invoice_id : Int
  next_usage_id : Int
deriving Repr, DecidableEq

/-- `SELECT ... FROM inventory WHERE id = ?` followed by `fetchone()`:
the first row with the given id, if any. -/
def findInventory (db : DB) (item_id : Int) : Option InventoryItem :=
  db.inventory.find? (fun r => r.id == item_id)

/-- `SELECT * FROM customers WHERE id = ?` + `fetchone()`
(src/database.py, get_customer_by_id). -/
def get_customer_by_id (db : DB) (customer_id : Int) : Option Customer :=
  db.customers.find? (fun c => c.id == customer_id)

/-- First appointment row with the given id, if any. -/
def findAppointment (db : DB) (appointment_id : Int) : Option Appointment :=
  db.appointments.find? (fun a => a.id == appointment_id)

/-- src/database.py, adjust_inventory_quantity: read the current quantity,
return False with no write when the row is missing or the new quantity would
be negative, otherwise write `current + quantity_change` and return True. -/
def adjust_inventory_quantity (db : DB) (item_id quantity_change : Int) :
    DB × Bool :=
  match findInventory db item_id with
  | none => (db, false)
  | some r =>
    let new_quantity := r.quantity + quantity_change
    if new_quantity < 0 then
      (db, false)
    else
      ({ db with
          inventory := db.inventory.map (fun x =>
            if x.id == item_id then { x with quantity := new_quantity } else x) },
       true)

/-- src/database.py, record_inventory_usage: read the current quantity; when
the row is missing or holds fewer than `quantity_used`, return `None` with no
write; otherwise decrement the item and insert one `inventory_usage` row,
returning the new row id (`cursor.lastrowid`). -/
def record_inventory_usage (db : DB) (inventory_id quantity_used : Int)
    (date_used : String) (appointment_id invoice_id : Option Int)
    (notes : String) : DB × Option Int :=
  match findInventory db inventory_id with
  | none => (db, none)
  | some r =>
    if r.quantity < quantity_used then
      (db, none)
    else
      let new_quantity := r.quantity - quantity_used
      let usage : UsageRow :=
        { id := db.next_usage_id, inventory_id := inventory_id,
          appointment_id := appointment_id, invoice_id := invoice_id,
          quantity_used := quantity_used, date_used := date_used,
          notes := notes }
      ({ db with
          inventory := db.inventory.map (fun x =>
            if x.id == inventory_id then { x with quantity := new_quantity } else x),
          inventory_usage := db.inventory_usage ++ [usage],
          next_usage_id := db.next_usage_id + 1 },
       some db.next_usage_id)

/-- src/database.py, create_invoice: the function takes no materials_cost or
tax_rate parameter at all; it assigns the locals `materials_cost = 0` and
`tax_rate = 0.08` and inserts those, with `status` left to its column default
of draft.  Returns the new row id. -/
def create_invoice (db : DB) (customer_id : Int)
    (invoice_number date technician work_performed : String)
    (labor_cost : Rat)
    (scheduled_time description recommendations : String) : DB × Int :=
  let materials_cost : Rat := 0
  let tax_rate : Rat := 0.08
  let inv : Invoice :=
    { id := db.next_invoice_id, invoice_number := invoice_number,
      customer_id := customer_id, date := date,
      scheduled_time := scheduled_time, technician := technician,
      work_performed := work_performed, description := description,
      recommendations := recommendations, labor_cost := labor_cost,
      materials_cost := materials_cost, tax_rate := tax_rate,
      status := "draft" }
  ({ db with invoices := db.invoices ++ [inv],
             next_invoice_id := db.next_invoice_id + 1 },
   db.next_invoice_id)

/-- src/database.py, update_invoice_status: a single
`UPDATE invoices SET status = ? WHERE id = ?` with no check on the status
value, no rowcount test, and no return value. -/
def update_invoice_status (db : DB) (invoice_id : Int) (status : String) : DB :=
  { db with
      invoices := db.invoices.map (fun inv =>
        if inv.id == invoice_id then { inv with status := status } else inv) }

/-- src/database.py, delete_customer: `DELETE FROM customers WHERE id = ?`,
returning whether `cursor.rowcount > 0`. -/
def delete_customer (db : DB) (customer_id : Int) : DB × Bool :=
  ({ db with customers := db.customers.filter (fun c => !(c.id == customer_id)) },
   0 < db.customers.countP (fun c => c.id == customer_id))

/-- src/database.py, check_customer_has_invoices:
`SELECT COUNT(*) FROM invoices WHERE customer_id = ?`, then `count > 0`. -/
def check_customer_has_invoices (db : DB) (customer_id : Int) : Bool :=
  0 < db.invoices.countP (fun inv => inv.customer_id == customer_id)

/-- Outcome of the DELETE /api/customers/:id endpoint, keeping only the
branch taken (404 not found, 409 conflict, or 200 deleted). -/
inductive DeleteCustomerResult where
  | notFound
  | conflict
  | deleted
deriving Repr, DecidableEq

/-- src/app.py, api_delete_customer: 404 when the customer is missing, 409
(and no write) when check_customer_has_invoices holds, otherwise
delete_customer runs and the endpoint reports success. -/
def api_delete_customer (db : DB) (customer_id : Int) :
    DB × DeleteCustomerResult :=
  match get_customer_by_id db customer_id with
  | none => (db, .notFound)
  | some _ =>
    if check_customer_has_invoices db customer_id then
      (db, .conflict)
    else
      ((delete_customer db customer_id).1, .deleted)

/-- src/database.py, link_appointment_to_invoice: a single
`UPDATE appointments SET invoice_id = ?, status = completed WHERE id = ?`. -/
def link_appointment_to_invoice (db : DB) (appointment_id invoice_id : Int) :
    DB :=
  { db with
      appointments := db.appointments.map (fun a =>
        if a.id == appointment_id then
          { a with invoice_id := some invoice_id, status := "completed" }
        else a) }

/-- src/database.py, get_appointment_by_id: the appointment joined with its
customer; the inner join yields a row only when the referenced customer
exists.  We return the appointment columns of that row. -/
def get_appointment_by_id (db : DB) (appointment_id : Int) :
    Option Appointment :=
  match findAppointment db appointment_id with
  | none => none
  | some a =>
    match get_customer_by_id db a.customer_id with
    | none => none
    | some _ => some a

/-- A value in a SQL result row, as handed back by the sqlite driver. -/
inductive SqlValue where
  | intV (i : Int)
  | ratV (q : Rat)
  | strV (s : String)
  | nullV
deriving Repr, DecidableEq

/-- Column list of the row produced by get_invoice_by_id in src/database.py:
`SELECT invoices.*, customers.name as customer_name, customers.phone,
customers.address as customer_address` — exactly the stored invoice columns
plus the three joined customer columns, nothing derived. -/
def invoiceRowColumns (inv : Invoice) (c : Customer) :
    List (String × SqlValue) :=
  [("id", .intV inv.id),
   ("invoice_number", .strV inv.invoice_number),
   ("customer_id", .intV inv.customer_id),
   ("date", .strV inv.date),
   ("scheduled_time", .strV inv.scheduled_time),
   ("technician", .strV inv.technician),
   ("work_performed", .strV inv.work_performed),
   ("description", .strV inv.description),
   ("recommendations", .strV inv.recommendations),
   ("labor_cost", .ratV inv.labor_cost),
   ("materials_cost", .ratV inv.materials_cost),
   ("tax_rate", .ratV inv.tax_rate),
   ("status", .strV inv.status),
   ("customer_name", .strV c.name),
   ("phone", .strV c.phone),
   ("customer_address", .strV c.address)]

/-- src/database.py, get_invoice_by_id: the invoice joined with its customer
(inner join, so the customer must exist), returned as the raw column/value
row. -/
def get_invoice_by_id (db : DB) (invoice_id : Int) :
    Option (List (String × SqlValue)) :=
  match db.invoices.find? (fun i => i.id == invoice_id) with
  | none => none
  | some inv =>
    match get_customer_by_id db inv.customer_id with
    | none => none
    | some c => some (invoiceRowColumns inv c)

/-- Dictionary-style access `row[key]` on a sqlite row: the value of the
first column with that name, `none` when the row has no such column (in
Python this raises and the request handler 500s). -/
def rowLookup (row : List (String × SqlValue)) (key : String) :
    Option SqlValue :=
  (row.find? (fun kv => kv.1 == key)).map (fun kv => kv.2)

/-- Outcome of PUT /api/appointments/:id/link-invoice, keeping only the
branch taken. -/
inductive LinkResult where
  | badRequest
  | aptNotFound
  | invNotFound
  | linked
deriving Repr, DecidableEq

/-- src/app.py, api_link_appointment_to_invoice: 400 when invoice_id is
absent or falsy (Python `if not invoice_id`), 404 when the appointment or the
invoice does not resolve, otherwise the single linking update runs. -/
def api_link_appointment_to_invoice (db : DB) (appointment_id : Int)
    (invoice_id : Option Int) : DB × LinkResult :=
  match invoice_id with
  | none => (db, .badRequest)
  | some vid =>
    if vid = 0 then (db, .badRequest)
    else
      match get_appointment_by_id db appointment_id with
      | none => (db, .aptNotFound)
      | some _ =>
        match get_invoice_by_id db vid with
        | none => (db, .invNotFound)
        | some _ => (link_appointment_to_invoice db appointment_id vid, .linked)

/-- src/validators.py, validate_invoice_number: reject an empty number;
otherwise query for a row with the same invoice_number — excluding the row
with id `exclude_id` when that argument is truthy (Python `if exclude_id:`,
so None and 0 both take the plain query) — and reject exactly when
`fetchone()` finds one. -/
def validate_invoice_number (db : DB) (invoice_number : String)
    (exclude_id : Option Int) : Except String Unit :=
  if invoice_number = "" then
    .error "Invoice number is required"
  else
    let truthy : Bool :=
      match exclude_id with
      | some e => e != 0
      | none => false
    let hits :=
      if truthy then
        db.invoices.filter (fun i =>
          i.invoice_number == invoice_number && i.id != exclude_id.getD 0)
      else
        db.invoices.filter (fun i => i.invoice_number == invoice_number)
    match hits.head? with
    | some _ => .error ("Invoice number " ++ invoice_number ++ " already exists")
    | none => .ok ()

/-- src/validators.py, validate_phone: the digit-only formatted output
`(XXX) XXX-XXXX` built from a 10-character digit list via the Python slices
`cleaned[:3]`, `cleaned[3:6]`, `cleaned[6:]`. -/
def formatPhone (cleaned : List Char) : String :=
  "(" ++ String.mk (cleaned.take 3) ++ ") "
      ++ String.mk ((cleaned.drop 3).take 3) ++ "-"
      ++ String.mk (cleaned.drop 6)

/-- src/validators.py, validate_phone: reject a falsy (empty) input, strip
every non-digit character, reject unless exactly 10 digits remain, and
return the formatted number otherwise. -/
def validate_phone (phone : String) : Except String String :=
  if phone = "" then
    .error "Phone number is required"
  else
    let cleaned := phone.data.filter Char.isDigit
    if cleaned.length = 10 then
      .ok (formatPhone cleaned)
    else
      .error "Phone must be 10 digits (e.g., 5551234567)"

/-! ### Concrete database states used by the witnesses -/

/-- A stocked inventory item with quantity 10, the spec scenario input. -/
def item0 : InventoryItem :=
  { id := 1, name := "Run Capacitor", category := "parts", sku := "CAP-45",
    quantity := 10, unit := "ea", cost_per_unit := 12,
    low_stock_threshold := 5, supplier := "", notes := "" }

/-- A store holding just `item0`. -/
def db0 : DB :=
  { customers := [], invoices := [], appointments := [], inventory := [item0],
    inventory_usage := [], next_invoice_id := 1, next_usage_id := 1 }

/-! ### Helper lemmas about the row-update maps -/

/-- Updating rows with a function that never changes which rows satisfy the
selection predicate commutes with `find?`. -/
theorem find?_map_of_pred_preserved {α : Type} (l : List α) (p : α → Bool)
    (g : α → α) (hg : ∀ x, p (g x) = p x) (a : α) (h : l.find? p = some a) :
    (l.map g).find? p = some (g a) := by
  rw [List.find?_map]
  have hfun : (p ∘ g) = p := funext hg
  rw [hfun, h]
  rfl

/-- A row fixed by the update function survives the update unchanged. -/
theorem mem_map_of_fixed {α : Type} (l : List α) (g : α → α) (x : α)
    (hx : x ∈ l) (hfix : g x = x) : x ∈ l.map g := by
  rw [← hfix]
  exact List.mem_map_of_mem g hx

/-- The `UPDATE inventory SET quantity = ? WHERE id = ?` map, observed
through `find?` on the same id: the found row is the old row with its
quantity replaced. -/
theorem find?_set_quantity (l : List InventoryItem) (iid newq : Int)
    (item : InventoryItem) (h : l.find? (fun r => r.id == iid) = some item) :
    (l.map (fun x =>
        if x.id == iid then { x with quantity := newq } else x)).find?
      (fun r => r.id == iid) = some { item with quantity := newq } := by
  induction l with
  | nil => simp at h
  | cons y ys ih =>
    cases hy : (y.id == iid) with
    | true =>
      have h2 : y = item := by
        simp only [List.find?, hy] at h
        exact Option.some.inj h
      subst h2
      simp only [List.map_cons]
      rw [if_pos hy]
      simp only [List.find?, hy]
    | false =>
      have h2 : List.find? (fun r => r.id == iid) ys = some item := by
        simp only [List.find?, hy] at h
        exact h
      have hneg : ¬ ((y.id == iid) = true) := by simp [hy]
      simp only [List.map_cons]
      rw [if_neg hneg]
      simp only [List.find?, hy]
      exact ih h2

/-! ### C1 / C2: inventory mutation paths -/

/-- Claim C1: for every inventory item and every quantity_used, when the
item currently holds less than quantity_used, record_inventory_usage returns
the insufficient-stock failure (None) with the whole store unchanged;
otherwise it returns the fresh usage id, decrements exactly that item by
exactly quantity_used, appends exactly one usage row recording quantity_used,
and leaves every other inventory row unchanged. -/
theorem record_inventory_usage_correct (db : DB) (item : InventoryItem)
    (q : Int) (d : String) (aid vid : Option Int) (nts : String)
    (hfind : findInventory db item.id = some item) :
    (item.quantity < q →
      record_inventory_usage db item.id q d aid vid nts = (db, none))
    ∧ (q ≤ item.quantity →
      (record_inventory_usage db item.id q d aid vid nts).2 = some db.next_usage_id
      ∧ findInventory (record_inventory_usage db item.id q d aid vid nts).1 item.id
          = some { item with quantity := item.quantity - q }
      ∧ (record_inventory_usage db item.id q d aid vid nts).1.inventory_usage
          = db.inventory_usage ++
            [{ id := db.next_usage_id, inventory_id := item.id,
               appointment_id := aid, invoice_id := vid, quantity_used := q,
               date_used := d, notes := nts }]
      ∧ ∀ x ∈ db.inventory, x.id ≠ item.id →
          x ∈ (record_inventory_usage db item.id q d aid vid nts).1.inventory) := by
  constructor
  · intro hlt
    simp [record_inventory_usage, hfind, hlt]
  · intro hle
    have hnlt : ¬ item.quantity < q := not_lt.mpr hle
    simp only [record_inventory_usage, hfind, if_neg hnlt]
    refine ⟨trivial, ?_, trivial, ?_⟩
    · exact find?_set_quantity db.inventory item.id (item.quantity - q) item hfind
    · intro x hx hne
      exact mem_map_of_fixed db.inventory _ x hx
        (if_neg (by simpa using hne))

/-- Witness for C1: on the store with one item of quantity 10, recording a
usage of 4 succeeds with usage id 1 and leaves the item at quantity 6. -/
theorem record_inventory_usage_correct_witness :
    (record_inventory_usage db0 1 4 "2025-01-15" none none "").2 = some 1
    ∧ findInventory (record_inventory_usage db0 1 4 "2025-01-15" none none "").1 1
        = some { item0 with quantity := 6 } := by
  have h := (record_inventory_usage_correct db0 item0 4 "2025-01-15" none none ""
    (by decide)).2 (by decide)
  exact ⟨h.1, h.2.1⟩

/-- Claim C2: adjust_inventory_quantity rejects with no mutation when the
current quantity plus the delta is negative, otherwise sets the item to
current + delta and leaves other rows unchanged; and it preserves
non-negativity of every inventory quantity, also on the failing branch. -/
theorem adjust_inventory_quantity_correct (db : DB) (item : InventoryItem)
    (delta : Int) (hfind : findInventory db item.id = some item) :
    (item.quantity + delta < 0 →
      adjust_inventory_quantity db item.id delta = (db, false))
    ∧ (0 ≤ item.quantity + delta →
      (adjust_inventory_quantity db item.id delta).2 = true
      ∧ findInventory (adjust_inventory_quantity db item.id delta).1 item.id
          = some { item with quantity := item.quantity + delta }
      ∧ ∀ x ∈ db.inventory, x.id ≠ item.id →
          x ∈ (adjust_inventory_quantity db item.id delta).1.inventory)
    ∧ ((∀ x ∈ db.inventory, 0 ≤ x.quantity) →
      ∀ x ∈ (adjust_inventory_quantity db item.id delta).1.inventory,
        0 ≤ x.quantity) := by
  refine ⟨?_, ?_, ?_⟩
  · intro hlt
    simp [adjust_inventory_quantity, hfind, hlt]
  · intro hge
    have hnlt : ¬ item.quantity + delta < 0 := not_lt.mpr hge
    simp only [adjust_inventory_quantity, hfind, if_neg hnlt]
    refine ⟨trivial, ?_, ?_⟩
    · exact find?_set_quantity db.inventory item.id (item.quantity + delta) item hfind
    · intro x hx hne
      exact mem_map_of_fixed db.inventory _ x hx
        (if_neg (by simpa using hne))
  · intro hall x hx
    by_cases hnew : item.quantity + delta < 0
    · simp only [adjust_inventory_quantity, hfind, if_pos hnew] at hx
      exact hall x hx
    · simp only [adjust_inventory_quantity, hfind, if_neg hnew] at hx
      rcases List.mem_map.mp hx with ⟨y, hy, hyx⟩
      by_cases hyid : (y.id == item.id) = true
      · rw [← hyx, if_pos hyid]
        exact not_lt.mp hnew
      · rw [← hyx, if_neg hyid]
        exact hall y hy

/-- Witness for C2: on the store with one item of quantity 10, an adjustment
of -3 succeeds and leaves the item at quantity 7. -/
theorem adjust_inventory_quantity_correct_witness :
    (adjust_inventory_quantity db0 1 (-3)).2 = true
    ∧ findInventory (adjust_inventory_quantity db0 1 (-3)).1 1
        = some { item0 with quantity := 7 } := by
  have h := (adjust_inventory_quantity_correct db0 item0 (-3) (by decide)).2.1
    (by decide)
  exact ⟨h.1, h.2.1⟩

/-! ### C9: update_invoice_status frame conditions -/

/-- Claim C9: update_invoice_status writes only the status column of the
invoices with the given id — every other field of such an invoice, every
other invoice row, and every other table are unchanged — it constrains the
status value in no way (the theorem holds for an arbitrary string), and when
no invoice has the given id the whole store is returned unchanged. -/
theorem update_invoice_status_frame (db : DB) (iid : Int) (s : String) :
    (update_invoice_status db iid s).customers = db.customers
    ∧ (update_invoice_status db iid s).appointments = db.appointments
    ∧ (update_invoice_status db iid s).inventory = db.inventory
    ∧ (update_invoice_status db iid s).inventory_usage = db.inventory_usage
    ∧ (∀ inv ∈ db.invoices, inv.id ≠ iid →
        inv ∈ (update_invoice_status db iid s).invoices)
    ∧ (∀ inv ∈ db.invoices, inv.id = iid →
        { inv with status := s } ∈ (update_invoice_status db iid s).invoices)
    ∧ ((∀ inv ∈ db.invoices, inv.id ≠ iid) →
        update_invoice_status db iid s = db) := by
  refine ⟨rfl, rfl, rfl, rfl, ?_, ?_, ?_⟩
  · intro inv hmem hne
    exact mem_map_of_fixed db.invoices _ inv hmem (if_neg (by simpa using hne))
  · intro inv hmem hid
    have hfix : (fun j : Invoice =>
        if j.id == iid then { j with status := s } else j) inv
          = { inv with status := s } := if_pos (by simpa using hid)
    have := List.mem_map_of_mem
      (fun j : Invoice => if j.id == iid then { j with status := s } else j) hmem
    rw [hfix] at this
    exact this
  · intro hall
    have hinv : db.invoices.map (fun j : Invoice =>
        if j.id == iid then { j with status := s } else j) = db.invoices := by
      calc db.invoices.map (fun j : Invoice =>
              if j.id == iid then { j with status := s } else j)
          = db.invoices.map (fun j => j) :=
            List.map_congr_left (fun a ha => if_neg (by simpa using hall a ha))
        _ = db.invoices := List.map_id' db.invoices
    simp only [update_invoice_status, hinv]

/-- Witness for C9: on a concrete store, the non-target invoice survives the
status write unchanged. -/
theorem update_invoice_status_frame_witness :
    (update_invoice_status db0 7 "paid").inventory = db0.inventory ∧
    ((∀ inv ∈ db0.invoices, inv.id ≠ 7) → update_invoice_status db0 7 "paid" = db0) := by
  have h := update_invoice_status_frame db0 7 "paid"
  exact ⟨h.2.2.1, h.2.2.2.2.2.2⟩

/-! ### C5: customer delete guard -/

/-- Claim C5: deleting a customer is rejected as a conflict, with the whole
store unchanged, exactly while at least one invoice references the customer
(so the rejection recurs on every retry until those invoices are gone); with
zero referencing invoices the delete succeeds, the customer row is gone, and
every other customer row survives. -/
theorem api_delete_customer_correct (db : DB) (cid : Int) (c : Customer)
    (hc : get_customer_by_id db cid = some c) :
    ((∃ inv ∈ db.invoices, inv.customer_id = cid) →
      api_delete_customer db cid = (db, DeleteCustomerResult.conflict))
    ∧ ((∀ inv ∈ db.invoices, inv.customer_id ≠ cid) →
      (api_delete_customer db cid).2 = DeleteCustomerResult.deleted
      ∧ get_customer_by_id (api_delete_customer db cid).1 cid = none
      ∧ ∀ x ∈ db.customers, x.id ≠ cid →
          x ∈ (api_delete_customer db cid).1.customers) := by
  constructor
  · rintro ⟨inv, hmem, hcid⟩
    have hhas : check_customer_has_invoices db cid = true := by
      simp only [check_customer_has_invoices, decide_eq_true_eq]
      exact List.countP_pos_iff.mpr ⟨inv, hmem, by simpa using hcid⟩
    simp [api_delete_customer, hc, hhas]
  · intro hnone
    have hcount : db.invoices.countP (fun inv => inv.customer_id == cid) = 0 :=
      List.countP_eq_zero.mpr (fun a ha => by simpa using hnone a ha)
    have hhas : check_customer_has_invoices db cid = false := by
      simp [check_customer_has_invoices, hcount]
    refine ⟨?_, ?_, ?_⟩
    · simp [api_delete_customer, hc, hhas]
    · simp only [api_delete_customer, hc, hhas, if_false]
      exact List.find?_eq_none.mpr (fun x hx => by
        have hp := (List.mem_filter.mp hx).2
        simpa using hp)
    · intro x hx hne
      simp only [api_delete_customer, hc, hhas, if_false]
      exact List.mem_filter.mpr ⟨hx, by simpa using hne⟩

/-- The customer of the spec scenario. -/
def jane : Customer :=
  { id := 1, name := "Jane Doe", phone := "(555) 123-4567",
    address := "12 Main St" }

/-- An invoice billed to `jane`. -/
def inv3 : Invoice :=
  { id := 1, invoice_number := "INV-001", customer_id := 1,
    date := "2025-01-15", scheduled_time := "", technician := "Tech",
    work_performed := "Install", description := "", recommendations := "",
    labor_cost := 100, materials_cost := 50, tax_rate := 1/10,
    status := "draft" }

/-- A store holding `jane` and one invoice referencing her. -/
def db5 : DB :=
  { customers := [jane], invoices := [inv3], appointments := [],
    inventory := [], inventory_usage := [], next_invoice_id := 2,
    next_usage_id := 1 }

/-- Witness for C5: a customer with one invoice cannot be deleted and the
store is untouched. -/
theorem api_delete_customer_correct_witness :
    api_delete_customer db5 1 = (db5, DeleteCustomerResult.conflict) :=
  (api_delete_customer_correct db5 1 jane (by decide)).1
    ⟨inv3, List.mem_cons_self inv3 [], rfl⟩

/-! ### C7: linking an appointment to an invoice -/

/-- The `UPDATE appointments SET invoice_id = ?, status = completed
WHERE id = ?` map, observed through `find?` on the same id. -/
theorem find?_link (l : List Appointment) (aid vid : Int) (apt : Appointment)
    (h : l.find? (fun a => a.id == aid) = some apt) :
    (l.map (fun a =>
        if a.id == aid then
          { a with invoice_id := some vid, status := "completed" }
        else a)).find? (fun a => a.id == aid)
      = some { apt with invoice_id := some vid, status := "completed" } := by
  induction l with
  | nil => simp at h
  | cons y ys ih =>
    cases hy : (y.id == aid) with
    | true =>
      have h2 : y = apt := by
        simp only [List.find?, hy] at h
        exact Option.some.inj h
      subst h2
      simp only [List.map_cons]
      rw [if_pos hy]
      simp only [List.find?, hy]
    | false =>
      have h2 : List.find? (fun a => a.id == aid) ys = some apt := by
        simp only [List.find?, hy] at h
        exact h
      have hneg : ¬ ((y.id == aid) = true) := by simp [hy]
      simp only [List.map_cons]
      rw [if_neg hneg]
      simp only [List.find?, hy]
      exact ih h2

/-- Claim C7: with a truthy invoice id, when the appointment resolves but the
invoice id resolves to no invoice, the endpoint fails with 404 and the whole
store — in particular every field of the appointment — is unchanged; when the
invoice also resolves, the single update sets the appointment's invoice_id to
that id and its status to completed, leaving all other appointments
unchanged. -/
theorem api_link_appointment_correct (db : DB) (aid vid : Int)
    (apt : Appointment) (hvid : vid ≠ 0)
    (hapt : get_appointment_by_id db aid = some apt) :
    (get_invoice_by_id db vid = none →
      api_link_appointment_to_invoice db aid (some vid)
        = (db, LinkResult.invNotFound))
    ∧ (∀ row, get_invoice_by_id db vid = some row →
      (api_link_appointment_to_invoice db aid (some vid)).2 = LinkResult.linked
      ∧ findAppointment (api_link_appointment_to_invoice db aid (some vid)).1 aid
          = some { apt with invoice_id := some vid, status := "completed" }
      ∧ ∀ x ∈ db.appointments, x.id ≠ aid →
          x ∈ (api_link_appointment_to_invoice db aid (some vid)).1.appointments) := by
  have hfa : findAppointment db aid = some apt := by
    unfold get_appointment_by_id at hapt
    split at hapt
    · exact Option.noConfusion hapt
    · rename_i a ha
      split at hapt
      · exact Option.noConfusion hapt
      · rw [ha]
        exact hapt
  constructor
  · intro hinv
    simp [api_link_appointment_to_invoice, hvid, hapt, hinv]
  · intro row hrow
    simp only [api_link_appointment_to_invoice, if_neg hvid, hapt, hrow]
    refine ⟨trivial, ?_, ?_⟩
    · exact find?_link db.appointments aid vid apt hfa
    · intro x hx hne
      exact mem_map_of_fixed db.appointments _ x hx (if_neg (by simpa using hne))

/-- A scheduled appointment for `jane`, not yet linked to any invoice. -/
def apt7 : Appointment :=
  { id := 1, customer_id := 1, appointment_date := "2025-01-14",
    appointment_time := "10:00 AM", technician := "Tech",
    service_type := "repair", notes := "", status := "scheduled",
    invoice_id := none }

/-- A store holding `jane`, her invoice `inv3` and the appointment `apt7`. -/
def db7 : DB :=
  { customers := [jane], invoices := [inv3], appointments := [apt7],
    inventory := [], inventory_usage := [], next_invoice_id := 2,
    next_usage_id := 1 }

/-- Witness for C7: linking appointment 1 to the existing invoice 1 reports
success, sets invoice_id to 1 and status to completed. -/
theorem api_link_appointment_correct_witness :
    (api_link_appointment_to_invoice db7 1 (some 1)).2 = LinkResult.linked
    ∧ findAppointment (api_link_appointment_to_invoice db7 1 (some 1)).1 1
        = some { apt7 with invoice_id := some 1, status := "completed" } := by
  have h := (api_link_appointment_correct db7 1 1 apt7 (by decide) (by rfl)).2
    (invoiceRowColumns inv3 jane) (by rfl)
  exact ⟨h.1, h.2.1⟩

/-! ### C3: invoice-number uniqueness -/

/-- Claim C3: for a stored invoice whose number is unique in the table, the
create-path uniqueness check (`exclude_id = None`) rejects that number as
already existing, while the update-path check excluding the invoice's own id
accepts the unchanged number, so re-saving an invoice with its own number
does not self-conflict. -/
theorem validate_invoice_number_correct (db : DB) (inv : Invoice)
    (hmem : inv ∈ db.invoices) (hne : inv.invoice_number ≠ "")
    (hid0 : inv.id ≠ 0)
    (huniq : ∀ j ∈ db.invoices,
      j.invoice_number = inv.invoice_number → j.id = inv.id) :
    (∃ msg, validate_invoice_number db inv.invoice_number none
      = Except.error msg)
    ∧ validate_invoice_number db inv.invoice_number (some inv.id)
      = Except.ok () := by
  constructor
  · have hmemf : inv ∈ db.invoices.filter
        (fun i => i.invoice_number == inv.invoice_number) :=
      List.mem_filter.mpr ⟨hmem, by simp⟩
    have hfil : db.invoices.filter
        (fun i => i.invoice_number == inv.invoice_number) ≠ [] := by
      intro h0
      rw [h0] at hmemf
      simp at hmemf
    obtain ⟨x, hx⟩ : ∃ x, (db.invoices.filter
        (fun i => i.invoice_number == inv.invoice_number)).head? = some x := by
      cases hcase : (db.invoices.filter
          (fun i => i.invoice_number == inv.invoice_number)).head? with
      | none => exact absurd (List.head?_eq_none_iff.mp hcase) hfil
      | some x => exact ⟨x, rfl⟩
    refine ⟨"Invoice number " ++ inv.invoice_number ++ " already exists", ?_⟩
    simp [validate_invoice_number, hne, hx]
  · have hfil : db.invoices.filter (fun i =>
        i.invoice_number == inv.invoice_number
          && i.id != (some inv.id).getD 0) = [] := by
      rw [List.filter_eq_nil_iff]
      intro a ha
      by_cases hnum : a.invoice_number = inv.invoice_number
      · have haid : a.id = inv.id := huniq a ha hnum
        simp [haid]
      · simp [hnum]
    simp only [validate_invoice_number, if_neg hne]
    have htr : ((inv.id : Int) != 0) = true := by simpa using hid0
    simp only [htr, if_true, hfil, List.head?_nil]

/-- A store holding one invoice with number INV-001. -/
def db3 : DB :=
  { customers := [jane], invoices := [inv3], appointments := [],
    inventory := [], inventory_usage := [], next_invoice_id := 2,
    next_usage_id := 1 }

/-- Witness for C3: creating a second INV-001 is rejected, while re-saving
invoice 1 with its own number INV-001 passes the check. -/
theorem validate_invoice_number_correct_witness :
    (∃ msg, validate_invoice_number db3 "INV-001" none = Except.error msg)
    ∧ validate_invoice_number db3 "INV-001" (some 1) = Except.ok () :=
  validate_invoice_number_correct db3 inv3 (List.mem_cons_self inv3 [])
    (by decide) (by decide)
    (by
      intro j hj hnum
      rcases List.mem_singleton.mp hj with rfl
      rfl)

/-! ### C8 / C10: the phone validator -/

/-- Characterisation of validate_phone acceptance: it returns `ok f` exactly
when the input is non-empty, exactly 10 digits survive the non-digit strip,
and f is the formatted rendering of those digits. -/
theorem validate_phone_ok_iff (p f : String) :
    validate_phone p = Except.ok f ↔
      (p ≠ "" ∧ (p.data.filter Char.isDigit).length = 10
        ∧ f = formatPhone (p.data.filter Char.isDigit)) := by
  constructor
  · intro h
    simp only [validate_phone] at h
    by_cases hp : p = ""
    · rw [if_pos hp] at h
      exact Except.noConfusion h
    · rw [if_neg hp] at h
      by_cases hlen : (p.data.filter Char.isDigit).length = 10
      · rw [if_pos hlen] at h
        exact ⟨hp, hlen, (Except.ok.inj h).symm⟩
      · rw [if_neg hlen] at h
        exact Except.noConfusion h
  · rintro ⟨hp, hlen, rfl⟩
    simp only [validate_phone]
    rw [if_neg hp, if_pos hlen]

/-- The characters surviving the digit filter of a formatted phone string
are exactly the ten digits it was built from. -/
theorem filter_formatPhone (c : List Char) (hda : ∀ x ∈ c, x.isDigit = true) :
    (formatPhone c).data.filter Char.isDigit = c := by
  have hpar : Char.isDigit '(' = false := by decide
  have hpar2 : Char.isDigit ')' = false := by decide
  have hsp : Char.isDigit ' ' = false := by decide
  have hda2 : Char.isDigit '-' = false := by decide
  have ht3 : (c.take 3).filter Char.isDigit = c.take 3 :=
    List.filter_eq_self.mpr (fun a ha => hda a (List.take_subset 3 c ha))
  have hm3 : ((c.drop 3).take 3).filter Char.isDigit = (c.drop 3).take 3 :=
    List.filter_eq_self.mpr (fun a ha =>
      hda a (List.drop_subset 3 c (List.take_subset 3 (c.drop 3) ha)))
  have hd6 : (c.drop 6).filter Char.isDigit = c.drop 6 :=
    List.filter_eq_self.mpr (fun a ha => hda a (List.drop_subset 6 c ha))
  have hmid : (c.drop 3).take 3 ++ c.drop 6 = c.drop 3 := by
    have hdd : (c.drop 3).drop 3 = c.drop 6 := by
      rw [List.drop_drop]
    calc (c.drop 3).take 3 ++ c.drop 6
        = (c.drop 3).take 3 ++ (c.drop 3).drop 3 := by rw [hdd]
      _ = c.drop 3 := List.take_append_drop 3 (c.drop 3)
  show (("(" ++ String.mk (c.take 3) ++ ") "
      ++ String.mk ((c.drop 3).take 3) ++ "-"
      ++ String.mk (c.drop 6)).data.filter Char.isDigit) = c
  simp only [String.data_append]
  show ((['('] ++ c.take 3 ++ [')', ' ']
      ++ (c.drop 3).take 3 ++ ['-']
      ++ c.drop 6).filter Char.isDigit) = c
  simp only [List.filter_append, List.filter_cons, hpar, hpar2, hsp, hda2,
    List.filter_nil, Bool.false_eq_true, if_false, ht3, hm3, hd6]
  simp only [List.nil_append, List.append_nil, List.append_assoc]
  rw [hmid, List.take_append_drop]

/-- Claim C8: validate_phone strips all non-digit characters and accepts
exactly when 10 digits remain, returning them as (XXX) XXX-XXXX; any other
input — the empty string, or one whose stripped form is not 10 digits — is
rejected with a human-readable message. -/
theorem validate_phone_correct (p : String) :
    (∀ f, validate_phone p = Except.ok f ↔
      (p ≠ "" ∧ (p.data.filter Char.isDigit).length = 10
        ∧ f = formatPhone (p.data.filter Char.isDigit)))
    ∧ ((p = "" ∨ (p.data.filter Char.isDigit).length ≠ 10) →
      ∃ msg, validate_phone p = Except.error msg) := by
  constructor
  · intro f
    exact validate_phone_ok_iff p f
  · intro hcase
    simp only [validate_phone]
    by_cases hp : p = ""
    · rw [if_pos hp]
      exact ⟨_, rfl⟩
    · have hlen : (p.data.filter Char.isDigit).length ≠ 10 := by
        rcases hcase with hp2 | hl
        · exact absurd hp2 hp
        · exact hl
      rw [if_neg hp, if_neg hlen]
      exact ⟨_, rfl⟩

/-- Witness for C8: the spec scenario input 5551234567 is accepted and
formatted as (555) 123-4567. -/
theorem validate_phone_correct_witness :
    validate_phone "5551234567" = Except.ok "(555) 123-4567" :=
  ((validate_phone_correct "5551234567").1 "(555) 123-4567").mpr
    ⟨by decide, by decide, by decide⟩

/-- Claim C10: validate_phone is idempotent — whenever it accepts an input
with formatted output f, running it again on f accepts and returns the same
f. -/
theorem validate_phone_idempotent (p f : String)
    (h : validate_phone p = Except.ok f) : validate_phone f = Except.ok f := by
  obtain ⟨hp, hlen, hf⟩ := (validate_phone_ok_iff p f).mp h
  have hda : ∀ x ∈ p.data.filter Char.isDigit, x.isDigit = true :=
    fun x hx => (List.mem_filter.mp hx).2
  have hfilter : f.data.filter Char.isDigit = p.data.filter Char.isDigit := by
    rw [hf]
    exact filter_formatPhone (p.data.filter Char.isDigit) hda
  have hfne : f ≠ "" := by
    intro h0
    have hdat : f.data.filter Char.isDigit = [] := by
      rw [h0]
      rfl
    rw [hfilter] at hdat
    rw [hdat] at hlen
    exact absurd hlen (by decide)
  have hflen : (f.data.filter Char.isDigit).length = 10 := by
    rw [hfilter]
    exact hlen
  apply (validate_phone_ok_iff f f).mpr
  refine ⟨hfne, hflen, ?_⟩
  rw [hfilter, ← hf]

/-- Witness for C10: re-validating the already formatted (555) 123-4567
returns it unchanged. -/
theorem validate_phone_idempotent_witness :
    validate_phone "(555) 123-4567" = Except.ok "(555) 123-4567" :=
  validate_phone_idempotent "5551234567" "(555) 123-4567" (by rfl)

/-! ### C4 / C6: invoice read and create, where src/database.py falls short
of the spec -/

/-- Claim C4 (refuted on src/database.py): the row returned by
get_invoice_by_id carries no subtotal, tax or total column at all — only the
raw stored columns such as labor_cost — so the read boundary returns no
derived values (src/app.py then indexes the missing keys, which raises).
Evaluated on the concrete store db3 whose invoice has labor_cost 100. -/
theorem get_invoice_by_id_no_derived_columns :
    (get_invoice_by_id db3 1).map (fun row =>
      (rowLookup row "subtotal", rowLookup row "tax", rowLookup row "total",
        rowLookup row "labor_cost"))
      = some (none, none, none, some (SqlValue.ratV 100)) := by
  rfl

/-- Claim C6 (refuted on src/database.py): create_invoice has no
materials_cost or tax_rate parameter, so for every call the stored invoice
has materials_cost 0 and tax_rate 0.08 regardless of what the caller wanted
to supply; only labor_cost and the text fields are stored as given. -/
theorem create_invoice_hardcodes_costs (db : DB) (cid : Int)
    (n d t w : String) (lc : Rat) (st ds rc : String) :
    ∃ inv : Invoice,
      (create_invoice db cid n d t w lc st ds rc).1.invoices
        = db.invoices ++ [inv]
      ∧ inv.materials_cost = 0 ∧ inv.tax_rate = 0.08
      ∧ inv.labor_cost = lc ∧ inv.invoice_number = n :=
  ⟨_, rfl, rfl, rfl, rfl, rfl⟩

end HVAC
